import Mathlib

/-!
Shallow embedding of the budget-performance aggregation of the
ExpenseNavigator repository (`MemStorage.getBudgetPerformance` in the
server storage module, together with the read helpers it calls and the
`/api/reports/budget-performance/:budgetId` route handler).

Monetary amounts (`doublePrecision` columns) are modelled as exact
rationals, timestamps as integers.
-/

namespace ExpenseNavigator

/-- A row of the `users` table (only the fields the storage keeps). -/
structure User where
  id : Nat
  username : String
  password : String
  name : String
  email : String
  deriving Repr, DecidableEq

/-- A row of the `expenses` table. -/
structure Expense where
  id : Nat
  userId : Nat
  amount : ℚ
  date : ℤ
  categoryId : Nat
  subcategoryId : Option Nat
  deriving Repr, DecidableEq

/-- A row of the `budgets` table. -/
structure Budget where
  id : Nat
  userId : Nat
  title : String
  startDate : ℤ
  endDate : ℤ
  totalBudget : ℚ
  deriving Repr, DecidableEq

/-- A row of the `budget_allocations` table. -/
structure BudgetAllocation where
  id : Nat
  budgetId : Nat
  categoryId : Nat
  subcategoryId : Option Nat
  amount : ℚ
  deriving Repr, DecidableEq

/-- One entry of the `categories` array returned by `getBudgetPerformance`. -/
@[ext]
structure CategoryPerformance where
  categoryId : Nat
  allocated : ℚ
  spent : ℚ
  remaining : ℚ
  deriving Repr, DecidableEq

/-- The record returned by `getBudgetPerformance`. -/
@[ext]
structure BudgetPerformance where
  allocated : ℚ
  spent : ℚ
  remaining : ℚ
  categories : List CategoryPerformance
  deriving Repr, DecidableEq

/-- The filter
`expenses.filter(e => new Date(e.date) >= budget.startDate && new Date(e.date) <= budget.endDate)`:
expenses whose date falls in the budget period. -/
def budgetExpenses (budget : Budget) (expenses : List Expense) : List Expense :=
  expenses.filter fun expense =>
    decide (budget.startDate ≤ expense.date) && decide (expense.date ≤ budget.endDate)

/-- The `Map<number, number>` built by the grouping loop, as a total function
defaulting to 0 (the code reads it with `categoryTotals.get(c) || 0`). -/
def categoryTotals (expenses : List Expense) : Nat → ℚ :=
  expenses.foldl
    (fun totals expense => fun c =>
      if c = expense.categoryId then totals c + expense.amount else totals c)
    (fun _ => 0)

/-- The pure aggregation body of `MemStorage.getBudgetPerformance`, after the
budget, its allocations and the owner's expenses have been fetched. -/
def computeBudgetPerformance (budget : Budget) (allocations : List BudgetAllocation)
    (expenses : List Expense) : BudgetPerformance :=
  let filtered := budgetExpenses budget expenses
  let totalAllocated := allocations.foldl (fun sum allocation => sum + allocation.amount) 0
  let totals := categoryTotals filtered
  let categoryPerformance := allocations.map fun allocation =>
    let spent := totals allocation.categoryId
    { categoryId := allocation.categoryId
      allocated := allocation.amount
      spent := spent
      remaining := allocation.amount - spent : CategoryPerformance }
  let totalSpent := categoryPerformance.foldl (fun sum cat => sum + cat.spent) 0
  { allocated := totalAllocated
    spent := totalSpent
    remaining := totalAllocated - totalSpent
    categories := categoryPerformance }

/-- The in-memory store: the values held by the maps of `MemStorage`
that `getBudgetPerformance` can reach. -/
structure MemStorage where
  users : List User
  expenses : List Expense
  budgets : List Budget
  budgetAllocations : List BudgetAllocation
  deriving Repr, DecidableEq

/-- `MemStorage.getBudgetById`: `this.budgets.get(id)` (map keyed by the
budget's own id). -/
def getBudgetById (s : MemStorage) (id : Nat) : Option Budget :=
  s.budgets.find? fun budget => budget.id == id

/-- `MemStorage.getBudgetAllocations`: filter the allocation values by
`budgetId`. -/
def getBudgetAllocations (s : MemStorage) (budgetId : Nat) : List BudgetAllocation :=
  s.budgetAllocations.filter fun allocation => allocation.budgetId == budgetId

/-- `MemStorage.getExpensesByUserId`: filter the expense values by `userId`. -/
def getExpensesByUserId (s : MemStorage) (userId : Nat) : List Expense :=
  s.expenses.filter fun expense => expense.userId == userId

/-- `MemStorage.getBudgetPerformance(budgetId)` with the storage state
threaded explicitly: each step returns its result together with the
(post-)state, so that absence of mutation is a provable fact rather than a
modelling assumption.  A thrown `Error` is an `Except.error`. -/
def getBudgetPerformanceRun (s : MemStorage) (budgetId : Nat) :
    Except String BudgetPerformance × MemStorage :=
  match getBudgetById s budgetId with
  | none => (Except.error ("Budget with id " ++ toString budgetId ++ " not found"), s)
  | some budget =>
    let allocations := getBudgetAllocations s budgetId
    let expenses := getExpensesByUserId s budget.userId
    (Except.ok (computeBudgetPerformance budget allocations expenses), s)

/-- Outcome of the `/api/reports/budget-performance/:budgetId` handler. -/
inductive RouteResult where
  | ok (performance : BudgetPerformance)
  | forbidden
  | serverError
  deriving Repr, DecidableEq

/-- The route handler: looks the budget up, answers 403 when it is missing or
not owned by the requester, otherwise runs `getBudgetPerformance`, turning a
thrown error into a 500. -/
def budgetPerformanceRoute (s : MemStorage) (reqUserId budgetId : Nat) : RouteResult :=
  match getBudgetById s budgetId with
  | none => RouteResult.forbidden
  | some budget =>
    if budget.userId == reqUserId then
      match (getBudgetPerformanceRun s budgetId).1 with
      | Except.ok performance => RouteResult.ok performance
      | Except.error _ => RouteResult.serverError
    else RouteResult.forbidden

/-! ### Derived views of the computation -/

/-- The spend `getBudgetPerformance` attributes to category `c`:
`categoryTotals.get(c) || 0` over the in-period expenses. -/
def spentFor (budget : Budget) (expenses : List Expense) (c : Nat) : ℚ :=
  categoryTotals (budgetExpenses budget expenses) c

/-- The per-category record built for one allocation. -/
def allocationEntry (budget : Budget) (expenses : List Expense)
    (allocation : BudgetAllocation) : CategoryPerformance :=
  { categoryId := allocation.categoryId
    allocated := allocation.amount
    spent := spentFor budget expenses allocation.categoryId
    remaining := allocation.amount - spentFor budget expenses allocation.categoryId }

@[simp]
theorem allocationEntry_categoryId (budget : Budget) (expenses : List Expense)
    (allocation : BudgetAllocation) :
    (allocationEntry budget expenses allocation).categoryId = allocation.categoryId := rfl

/-! ### Helper lemmas -/

/-- A `reduce`-style running sum is the sum of the mapped list. -/
theorem foldl_add_map_sum {α : Type} (f : α → ℚ) :
    ∀ (l : List α) (init : ℚ), l.foldl (fun sum x => sum + f x) init = init + (l.map f).sum
  | [], init => by simp
  | x :: l, init => by
    rw [List.foldl_cons, List.map_cons, List.sum_cons, foldl_add_map_sum f l (init + f x)]
    ring

/-- One cell of the grouping map is the sum of the amounts in that category,
on top of whatever the accumulator already held. -/
theorem categoryTotals_foldl_apply :
    ∀ (es : List Expense) (g : Nat → ℚ) (c : Nat),
      (es.foldl
          (fun totals expense => fun c' =>
            if c' = expense.categoryId then totals c' + expense.amount else totals c')
          g) c
        = g c + ((es.filter fun e => e.categoryId == c).map Expense.amount).sum
  | [], g, c => by simp
  | e :: es, g, c => by
    rw [List.foldl_cons, List.filter_cons,
      categoryTotals_foldl_apply es _ c]
    by_cases h : e.categoryId = c
    · have hb : (e.categoryId == c) = true := by simp [h]
      rw [if_pos hb, if_pos h.symm, List.map_cons, List.sum_cons]
      ring
    · have hb : (e.categoryId == c) = false := by simp [h]
      have hnc : ¬ c = e.categoryId := fun hh => h hh.symm
      rw [if_neg hnc, hb, if_neg Bool.false_ne_true]

/-- The grouping map read with default 0. -/
theorem categoryTotals_apply (es : List Expense) (c : Nat) :
    categoryTotals es c = ((es.filter fun e => e.categoryId == c).map Expense.amount).sum := by
  rw [categoryTotals, categoryTotals_foldl_apply]
  simp

theorem perf_categories (b : Budget) (as : List BudgetAllocation) (es : List Expense) :
    (computeBudgetPerformance b as es).categories = as.map (allocationEntry b es) := rfl

theorem perf_allocated (b : Budget) (as : List BudgetAllocation) (es : List Expense) :
    (computeBudgetPerformance b as es).allocated = (as.map BudgetAllocation.amount).sum := by
  show as.foldl (fun sum allocation => sum + allocation.amount) 0 = _
  rw [foldl_add_map_sum BudgetAllocation.amount as 0, zero_add]

theorem perf_spent (b : Budget) (as : List BudgetAllocation) (es : List Expense) :
    (computeBudgetPerformance b as es).spent
      = ((as.map (allocationEntry b es)).map CategoryPerformance.spent).sum := by
  show (as.map (allocationEntry b es)).foldl (fun sum cat => sum + cat.spent) 0 = _
  rw [foldl_add_map_sum CategoryPerformance.spent _ 0, zero_add]

theorem perf_spent_eq (b : Budget) (as : List BudgetAllocation) (es : List Expense) :
    (computeBudgetPerformance b as es).spent
      = (as.map fun a => spentFor b es a.categoryId).sum := by
  rw [perf_spent, List.map_map]
  rfl

theorem perf_remaining (b : Budget) (as : List BudgetAllocation) (es : List Expense) :
    (computeBudgetPerformance b as es).remaining
      = (computeBudgetPerformance b as es).allocated - (computeBudgetPerformance b as es).spent :=
  rfl

/-- The whole result, field by field. -/
theorem computeBudgetPerformance_eq (b : Budget) (as : List BudgetAllocation)
    (es : List Expense) :
    computeBudgetPerformance b as es
      = { allocated := (as.map BudgetAllocation.amount).sum
          spent := (as.map fun a => spentFor b es a.categoryId).sum
          remaining := (as.map BudgetAllocation.amount).sum
            - (as.map fun a => spentFor b es a.categoryId).sum
          categories := as.map (allocationEntry b es) } := by
  refine BudgetPerformance.ext ?_ ?_ ?_ ?_
  · rw [perf_allocated]
  · rw [perf_spent_eq]
  · rw [perf_remaining, perf_allocated, perf_spent_eq]
  · rw [perf_categories]

theorem spentFor_eq_sum (b : Budget) (es : List Expense) (c : Nat) :
    spentFor b es c
      = (((budgetExpenses b es).filter fun e => e.categoryId == c).map Expense.amount).sum := by
  rw [spentFor, categoryTotals_apply]

theorem budgetExpenses_cons (b : Budget) (e : Expense) (es : List Expense) :
    budgetExpenses b (e :: es)
      = if b.startDate ≤ e.date ∧ e.date ≤ b.endDate
        then e :: budgetExpenses b es else budgetExpenses b es := by
  rw [budgetExpenses, List.filter_cons]
  by_cases h : b.startDate ≤ e.date ∧ e.date ≤ b.endDate
  · simp [budgetExpenses, h.1, h.2]
  · rw [Decidable.not_and_iff_or_not] at h
    rcases h with h | h <;> simp [budgetExpenses, h]

/-- How one more expense moves one cell of the per-category spend. -/
theorem spentFor_cons (b : Budget) (e : Expense) (es : List Expense) (c : Nat) :
    spentFor b (e :: es) c
      = spentFor b es c
        + if (b.startDate ≤ e.date ∧ e.date ≤ b.endDate) ∧ e.categoryId = c
          then e.amount else 0 := by
  rw [spentFor_eq_sum, spentFor_eq_sum, budgetExpenses_cons]
  by_cases h1 : b.startDate ≤ e.date ∧ e.date ≤ b.endDate
  · rw [if_pos h1, List.filter_cons]
    by_cases h2 : e.categoryId = c
    · have hb : (e.categoryId == c) = true := by simp [h2]
      have hp : (b.startDate ≤ e.date ∧ e.date ≤ b.endDate) ∧ e.categoryId = c := ⟨h1, h2⟩
      rw [if_pos hb, if_pos hp, List.map_cons, List.sum_cons]
      ring
    · have hb : (e.categoryId == c) = false := by simp [h2]
      have hnp : ¬((b.startDate ≤ e.date ∧ e.date ≤ b.endDate) ∧ e.categoryId = c) :=
        fun hh => h2 hh.2
      rw [hb, if_neg Bool.false_ne_true, if_neg hnp, add_zero]
  · have hnp : ¬((b.startDate ≤ e.date ∧ e.date ≤ b.endDate) ∧ e.categoryId = c) :=
      fun hh => h1 hh.1
    rw [if_neg h1, if_neg hnp, add_zero]

/-- How one more expense moves one per-category entry: only when its date is
inside the closed interval and its category matches. -/
theorem allocationEntry_cons (b : Budget) (e : Expense) (es : List Expense)
    (a : BudgetAllocation) :
    allocationEntry b (e :: es) a
      = if (b.startDate ≤ e.date ∧ e.date ≤ b.endDate) ∧ e.categoryId = a.categoryId
        then { allocationEntry b es a with
                 spent := (allocationEntry b es a).spent + e.amount
                 remaining := (allocationEntry b es a).remaining - e.amount }
        else allocationEntry b es a := by
  by_cases h : (b.startDate ≤ e.date ∧ e.date ≤ b.endDate) ∧ e.categoryId = a.categoryId
  · rw [if_pos h]
    refine CategoryPerformance.ext rfl rfl ?_ ?_
    · show spentFor b (e :: es) a.categoryId = spentFor b es a.categoryId + e.amount
      rw [spentFor_cons, if_pos h]
    · show a.amount - spentFor b (e :: es) a.categoryId
        = a.amount - spentFor b es a.categoryId - e.amount
      rw [spentFor_cons, if_pos h]
      ring
  · rw [if_neg h]
    refine CategoryPerformance.ext rfl rfl ?_ ?_
    · show spentFor b (e :: es) a.categoryId = spentFor b es a.categoryId
      rw [spentFor_cons, if_neg h, add_zero]
    · show a.amount - spentFor b (e :: es) a.categoryId
        = a.amount - spentFor b es a.categoryId
      rw [spentFor_cons, if_neg h, add_zero]

/-! ### Erasing the (unused) subcategory fields -/

/-- An expense with its `subcategoryId` blanked out. -/
def clearExpenseSub (e : Expense) : Expense := { e with subcategoryId := none }

/-- An allocation with its `subcategoryId` blanked out. -/
def clearAllocationSub (a : BudgetAllocation) : BudgetAllocation :=
  { a with subcategoryId := none }

@[simp] theorem clearExpenseSub_date (e : Expense) : (clearExpenseSub e).date = e.date := rfl

@[simp] theorem clearExpenseSub_categoryId (e : Expense) :
    (clearExpenseSub e).categoryId = e.categoryId := rfl

@[simp] theorem clearExpenseSub_amount (e : Expense) :
    (clearExpenseSub e).amount = e.amount := rfl

@[simp] theorem clearAllocationSub_categoryId (a : BudgetAllocation) :
    (clearAllocationSub a).categoryId = a.categoryId := rfl

@[simp] theorem clearAllocationSub_amount (a : BudgetAllocation) :
    (clearAllocationSub a).amount = a.amount := rfl

theorem spentFor_map_clear (b : Budget) (es : List Expense) (c : Nat) :
    spentFor b (es.map clearExpenseSub) c = spentFor b es c := by
  induction es with
  | nil => rfl
  | cons e es ih =>
    rw [List.map_cons, spentFor_cons, spentFor_cons, ih,
      clearExpenseSub_date, clearExpenseSub_categoryId, clearExpenseSub_amount]

theorem allocationEntry_clear (b : Budget) (es : List Expense) (a : BudgetAllocation) :
    allocationEntry b (es.map clearExpenseSub) (clearAllocationSub a)
      = allocationEntry b es a := by
  refine CategoryPerformance.ext ?_ ?_ ?_ ?_
  · rw [allocationEntry_categoryId, allocationEntry_categoryId, clearAllocationSub_categoryId]
  · show (clearAllocationSub a).amount = a.amount
    rw [clearAllocationSub_amount]
  · show spentFor b (es.map clearExpenseSub) (clearAllocationSub a).categoryId
      = spentFor b es a.categoryId
    rw [clearAllocationSub_categoryId, spentFor_map_clear]
  · show (clearAllocationSub a).amount
        - spentFor b (es.map clearExpenseSub) (clearAllocationSub a).categoryId
      = a.amount - spentFor b es a.categoryId
    rw [clearAllocationSub_amount, clearAllocationSub_categoryId, spentFor_map_clear]

/-- The whole computation never reads the `subcategoryId` fields. -/
theorem computeBudgetPerformance_map_clear (b : Budget) (as : List BudgetAllocation)
    (es : List Expense) :
    computeBudgetPerformance b (as.map clearAllocationSub) (es.map clearExpenseSub)
      = computeBudgetPerformance b as es := by
  rw [computeBudgetPerformance_eq, computeBudgetPerformance_eq]
  have h1 : (as.map clearAllocationSub).map BudgetAllocation.amount
      = as.map BudgetAllocation.amount := by
    rw [List.map_map]
    exact List.map_congr_left fun a _ => clearAllocationSub_amount a
  have h2 : ((as.map clearAllocationSub).map
        fun a => spentFor b (es.map clearExpenseSub) a.categoryId)
      = as.map fun a => spentFor b es a.categoryId := by
    rw [List.map_map]
    refine List.map_congr_left fun a _ => ?_
    show spentFor b (es.map clearExpenseSub) (clearAllocationSub a).categoryId
      = spentFor b es a.categoryId
    rw [clearAllocationSub_categoryId, spentFor_map_clear]
  have h3 : (as.map clearAllocationSub).map (allocationEntry b (es.map clearExpenseSub))
      = as.map (allocationEntry b es) := by
    rw [List.map_map]
    exact List.map_congr_left fun a _ => allocationEntry_clear b es a
  rw [h1, h2, h3]

/-! ### Sample data for concrete instantiations -/

/-- A concrete budget covering days 1..31 of the example scenarios. -/
def sampleBudget : Budget :=
  { id := 1, userId := 7, title := "January", startDate := 1, endDate := 31,
    totalBudget := 100 }

/-- A concrete allocation of 30 to category 2 (Scenario C). -/
def sampleAllocation : BudgetAllocation :=
  { id := 2, budgetId := 1, categoryId := 2, subcategoryId := none, amount := 30 }

/-- Scenario B allocation: 50 to category 1. -/
def overAllocation : BudgetAllocation :=
  { id := 3, budgetId := 1, categoryId := 1, subcategoryId := none, amount := 50 }

/-- Scenario B expense: 70 in category 1, dated inside the interval. -/
def overExpense : Expense :=
  { id := 4, userId := 7, amount := 70, date := 10, categoryId := 1, subcategoryId := none }

/-- A storage holding just the sample budget. -/
def sampleStorage : MemStorage :=
  { users := [], expenses := [], budgets := [sampleBudget], budgetAllocations := [] }

/-- A storage holding nothing at all. -/
def emptyStorage : MemStorage :=
  { users := [], expenses := [], budgets := [], budgetAllocations := [] }

/-! ### The claims -/

/-- C1: `allocated` is the sum of all allocation amounts, the top-level
`spent` is the sum of the per-category `spent` values (so only spend against
allocated categories counts), and the top-level `remaining` equals
`allocated - spent`. -/
theorem C1_aggregate_identities (b : Budget) (as : List BudgetAllocation)
    (es : List Expense) :
    (computeBudgetPerformance b as es).allocated = (as.map BudgetAllocation.amount).sum
    ∧ (computeBudgetPerformance b as es).spent
        = ((computeBudgetPerformance b as es).categories.map CategoryPerformance.spent).sum
    ∧ (computeBudgetPerformance b as es).remaining
        = (computeBudgetPerformance b as es).allocated
          - (computeBudgetPerformance b as es).spent :=
  ⟨perf_allocated b as es,
   by rw [perf_spent, perf_categories],
   perf_remaining b as es⟩

/-- C2: an expense contributes to a category's `spent` exactly when its date
lies in the closed interval `[startDate, endDate]` and its category matches:
adding one expense to the input updates precisely the entries of its category
when it is in range (boundary dates included), and changes nothing when its
date is strictly outside, allocation or not. -/
theorem C2_contribution_iff_in_interval (b : Budget) (as : List BudgetAllocation)
    (es : List Expense) (e : Expense) :
    (computeBudgetPerformance b as (e :: es)).categories
      = (computeBudgetPerformance b as es).categories.map fun cp =>
          if (b.startDate ≤ e.date ∧ e.date ≤ b.endDate) ∧ e.categoryId = cp.categoryId
          then { cp with spent := cp.spent + e.amount, remaining := cp.remaining - e.amount }
          else cp := by
  rw [perf_categories, perf_categories, List.map_map]
  refine List.map_congr_left fun a _ => ?_
  show allocationEntry b (e :: es) a
    = if (b.startDate ≤ e.date ∧ e.date ≤ b.endDate)
          ∧ e.categoryId = (allocationEntry b es a).categoryId
      then { allocationEntry b es a with
               spent := (allocationEntry b es a).spent + e.amount
               remaining := (allocationEntry b es a).remaining - e.amount }
      else allocationEntry b es a
  rw [allocationEntry_categoryId]
  exact allocationEntry_cons b e es a

/-- C3: every allocation yields a per-category entry whose `allocated` is the
allocation's amount, whose `spent` is the sum of the in-interval expense
amounts of its category (the empty sum 0 when there are none), and whose
`remaining` is that amount minus that spend. -/
theorem C3_per_allocation (b : Budget) (as : List BudgetAllocation) (es : List Expense)
    (a : BudgetAllocation) (ha : a ∈ as) :
    ({ categoryId := a.categoryId
       allocated := a.amount
       spent := (((budgetExpenses b es).filter fun e => e.categoryId == a.categoryId).map
           Expense.amount).sum
       remaining := a.amount
         - (((budgetExpenses b es).filter fun e => e.categoryId == a.categoryId).map
             Expense.amount).sum : CategoryPerformance })
      ∈ (computeBudgetPerformance b as es).categories := by
  rw [perf_categories]
  have h : allocationEntry b es a
      = { categoryId := a.categoryId
          allocated := a.amount
          spent := (((budgetExpenses b es).filter fun e => e.categoryId == a.categoryId).map
              Expense.amount).sum
          remaining := a.amount
            - (((budgetExpenses b es).filter fun e => e.categoryId == a.categoryId).map
                Expense.amount).sum } := by
    rw [allocationEntry, spentFor_eq_sum]
  rw [← h]
  exact List.mem_map_of_mem _ ha

/-- C3 witness: Scenario C, an allocation of 30 to category 2 with no
expenses at all. -/
theorem C3_per_allocation_witness :
    ({ categoryId := sampleAllocation.categoryId
       allocated := sampleAllocation.amount
       spent := (((budgetExpenses sampleBudget []).filter
           fun e => e.categoryId == sampleAllocation.categoryId).map Expense.amount).sum
       remaining := sampleAllocation.amount
         - (((budgetExpenses sampleBudget []).filter
             fun e => e.categoryId == sampleAllocation.categoryId).map Expense.amount).sum :
       CategoryPerformance })
      ∈ (computeBudgetPerformance sampleBudget [sampleAllocation] []).categories :=
  C3_per_allocation sampleBudget [sampleAllocation] [] sampleAllocation
    (List.mem_singleton_self _)

/-- C4: a category no allocation names appears in no entry of the result, and
an expense of such a category contributes to nothing: dropping it leaves the
whole result unchanged. -/
theorem C4_unallocated_category_vanishes (b : Budget) (as : List BudgetAllocation)
    (es : List Expense) (c : Nat) (hc : ∀ a ∈ as, a.categoryId ≠ c) :
    (∀ cp ∈ (computeBudgetPerformance b as es).categories, cp.categoryId ≠ c)
    ∧ ∀ e : Expense, e.categoryId = c →
        computeBudgetPerformance b as (e :: es) = computeBudgetPerformance b as es := by
  constructor
  · intro cp hcp
    rw [perf_categories] at hcp
    obtain ⟨a, ha, rfl⟩ := List.mem_map.mp hcp
    rw [allocationEntry_categoryId]
    exact hc a ha
  · intro e he
    have key : ∀ a ∈ as,
        ¬((b.startDate ≤ e.date ∧ e.date ≤ b.endDate) ∧ e.categoryId = a.categoryId) :=
      fun a ha hh => hc a ha (hh.2.symm.trans he)
    have hspent : ∀ a ∈ as,
        spentFor b (e :: es) a.categoryId = spentFor b es a.categoryId := by
      intro a ha
      rw [spentFor_cons, if_neg (key a ha), add_zero]
    have hentry : ∀ a ∈ as, allocationEntry b (e :: es) a = allocationEntry b es a := by
      intro a ha
      rw [allocationEntry_cons, if_neg (key a ha)]
    have hm1 : (as.map fun a => spentFor b (e :: es) a.categoryId)
        = as.map fun a => spentFor b es a.categoryId := List.map_congr_left hspent
    have hm2 : as.map (allocationEntry b (e :: es)) = as.map (allocationEntry b es) :=
      List.map_congr_left hentry
    rw [computeBudgetPerformance_eq, computeBudgetPerformance_eq, hm1, hm2]

/-- C4 witness: category 5 has no allocation in a budget allocating only to
category 2, so it is absent from the breakdown and its expenses change
nothing. -/
theorem C4_unallocated_category_vanishes_witness :
    (∀ cp ∈ (computeBudgetPerformance sampleBudget [sampleAllocation] []).categories,
        cp.categoryId ≠ 5)
    ∧ ∀ e : Expense, e.categoryId = 5 →
        computeBudgetPerformance sampleBudget [sampleAllocation] (e :: [])
          = computeBudgetPerformance sampleBudget [sampleAllocation] [] :=
  C4_unallocated_category_vanishes sampleBudget [sampleAllocation] [] 5 (by decide)

/-- C5 counterexample: `getBudgetPerformance` itself detects a missing budget
and throws (`Budget with id ... not found`), so it is not error-free over
every input, contrary to the claim that a non-existent budget is never
something this component detects or signals. -/
theorem C5_counterexample_throws_on_missing :
    (getBudgetPerformanceRun emptyStorage 1).1
      = Except.error ("Budget with id " ++ toString 1 ++ " not found") := rfl

/-- C5 (amended): whenever the budget id resolves, `getBudgetPerformance`
returns a `BudgetPerformance` value and raises nothing; when it does not
resolve, the method itself throws a not-found error; the route checks
existence and ownership first (answering 403, not 404) and therefore never
surfaces that throw as a 500. -/
theorem C5_amended_totality (s : MemStorage) (budgetId : Nat) :
    (∀ b, getBudgetById s budgetId = some b →
        ∃ p, (getBudgetPerformanceRun s budgetId).1 = Except.ok p)
    ∧ (getBudgetById s budgetId = none →
        ∃ msg, (getBudgetPerformanceRun s budgetId).1 = Except.error msg)
    ∧ ∀ reqUserId, budgetPerformanceRoute s reqUserId budgetId ≠ RouteResult.serverError := by
  refine ⟨?_, ?_, ?_⟩
  · intro b hb
    exact ⟨computeBudgetPerformance b (getBudgetAllocations s budgetId)
        (getExpensesByUserId s b.userId),
      by simp [getBudgetPerformanceRun, hb]⟩
  · intro hb
    exact ⟨"Budget with id " ++ toString budgetId ++ " not found",
      by simp [getBudgetPerformanceRun, hb]⟩
  · intro reqUserId
    cases hb : getBudgetById s budgetId with
    | none => simp [budgetPerformanceRoute, hb]
    | some b =>
      by_cases hu : b.userId == reqUserId
      · simp [budgetPerformanceRoute, hb, hu, getBudgetPerformanceRun]
      · simp [budgetPerformanceRoute, hb, hu]

/-- C5 witness: a stored budget yields a value, an absent one yields the
thrown error, and the route answers the absent case without a 500. -/
theorem C5_amended_totality_witness :
    (∃ p, (getBudgetPerformanceRun sampleStorage 1).1 = Except.ok p)
    ∧ (∃ msg, (getBudgetPerformanceRun emptyStorage 1).1 = Except.error msg)
    ∧ budgetPerformanceRoute emptyStorage 7 1 ≠ RouteResult.serverError :=
  ⟨(C5_amended_totality sampleStorage 1).1 sampleBudget rfl,
   (C5_amended_totality emptyStorage 1).2.1 rfl,
   (C5_amended_totality emptyStorage 1).2.2 7⟩

/-- C6: a budget with no allocations yields zero allocated, zero spent and an
empty breakdown, however many expenses exist; this is an ordinary value, not
an error. -/
theorem C6_no_allocations (b : Budget) (es : List Expense) :
    computeBudgetPerformance b [] es
      = { allocated := 0, spent := 0, remaining := 0, categories := [] } := by
  rw [computeBudgetPerformance_eq]
  simp

/-- C7: spend above the allocation makes `remaining` negative and raises
nothing: an entry whose category was overspent has negative remaining, and
when total spend exceeds total allocation the top-level remaining is
negative. -/
theorem C7_over_budget_negative (b : Budget) (as : List BudgetAllocation)
    (es : List Expense) (a : BudgetAllocation) (ha : a ∈ as)
    (hover : a.amount < spentFor b es a.categoryId) :
    (∃ cp ∈ (computeBudgetPerformance b as es).categories,
        cp.categoryId = a.categoryId ∧ cp.remaining < 0)
    ∧ ((computeBudgetPerformance b as es).allocated
          < (computeBudgetPerformance b as es).spent →
        (computeBudgetPerformance b as es).remaining < 0) := by
  constructor
  · refine ⟨allocationEntry b es a, ?_, rfl, ?_⟩
    · rw [perf_categories]
      exact List.mem_map_of_mem _ ha
    · show a.amount - spentFor b es a.categoryId < 0
      linarith
  · intro hlt
    rw [perf_remaining]
    linarith

/-- C7 witness: Scenario B, allocation 50 to category 1 and an in-interval
expense of 70 in category 1. -/
theorem C7_over_budget_negative_witness :
    (∃ cp ∈ (computeBudgetPerformance sampleBudget [overAllocation]
        [overExpense]).categories,
        cp.categoryId = overAllocation.categoryId ∧ cp.remaining < 0)
    ∧ ((computeBudgetPerformance sampleBudget [overAllocation] [overExpense]).allocated
          < (computeBudgetPerformance sampleBudget [overAllocation] [overExpense]).spent →
        (computeBudgetPerformance sampleBudget [overAllocation] [overExpense]).remaining
          < 0) :=
  C7_over_budget_negative sampleBudget [overAllocation] [overExpense] overAllocation
    (List.mem_singleton_self _)
    (by norm_num [spentFor, categoryTotals, budgetExpenses, overAllocation, overExpense,
      sampleBudget, List.filter, List.foldl])

/-- C8: the computation is pure: it hands the storage back unchanged, and a
second call on the resulting state returns the identical answer. -/
theorem C8_pure_frame (s : MemStorage) (budgetId : Nat) :
    (getBudgetPerformanceRun s budgetId).2 = s
    ∧ getBudgetPerformanceRun ((getBudgetPerformanceRun s budgetId).2) budgetId
        = getBudgetPerformanceRun s budgetId := by
  have h2 : (getBudgetPerformanceRun s budgetId).2 = s := by
    cases hb : getBudgetById s budgetId <;> simp [getBudgetPerformanceRun, hb]
  exact ⟨h2, by rw [h2]⟩

/-- C9: the breakdown has exactly one entry per allocation, in allocation
order, each carrying its category's full in-interval spend; the top-level
`spent` adds that spend once per allocation, so a category allocated twice is
counted twice. -/
theorem C9_entry_per_allocation (b : Budget) (as : List BudgetAllocation)
    (es : List Expense) :
    (computeBudgetPerformance b as es).categories
        = as.map (fun a =>
            { categoryId := a.categoryId
              allocated := a.amount
              spent := (((budgetExpenses b es).filter
                  fun e => e.categoryId == a.categoryId).map Expense.amount).sum
              remaining := a.amount - (((budgetExpenses b es).filter
                  fun e => e.categoryId == a.categoryId).map Expense.amount).sum })
    ∧ (computeBudgetPerformance b as es).spent
        = (as.map fun a => (((budgetExpenses b es).filter
            fun e => e.categoryId == a.categoryId).map Expense.amount).sum).sum := by
  constructor
  · rw [perf_categories]
    refine List.map_congr_left fun a _ => ?_
    rw [allocationEntry, spentFor_eq_sum]
  · rw [perf_spent_eq]
    refine congrArg List.sum (List.map_congr_left fun a _ => ?_)
    rw [spentFor_eq_sum]

/-- C10: the `subcategoryId` fields of the expenses and allocations never
influence the result: two inputs equal up to those fields give equal
outputs. -/
theorem C10_subcategory_irrelevant (b : Budget) (as₁ as₂ : List BudgetAllocation)
    (es₁ es₂ : List Expense)
    (ha : as₁.map clearAllocationSub = as₂.map clearAllocationSub)
    (he : es₁.map clearExpenseSub = es₂.map clearExpenseSub) :
    computeBudgetPerformance b as₁ es₁ = computeBudgetPerformance b as₂ es₂ := by
  rw [← computeBudgetPerformance_map_clear b as₁ es₁, ha, he,
    computeBudgetPerformance_map_clear]

/-- C10 witness: the same allocation and expense with `subcategoryId` set and
unset give the same result. -/
theorem C10_subcategory_irrelevant_witness :
    computeBudgetPerformance sampleBudget
        [{ id := 3, budgetId := 1, categoryId := 1, subcategoryId := some 9, amount := 50 }]
        [{ id := 4, userId := 7, amount := 70, date := 10, categoryId := 1,
           subcategoryId := some 8 }]
      = computeBudgetPerformance sampleBudget
        [{ id := 3, budgetId := 1, categoryId := 1, subcategoryId := none, amount := 50 }]
        [{ id := 4, userId := 7, amount := 70, date := 10, categoryId := 1,
           subcategoryId := none }] :=
  C10_subcategory_irrelevant sampleBudget _ _ _ _ rfl rfl

end ExpenseNavigator
